import Mathlib

/-!
Verification development for the pylegoboost BLE protocol library.

The repository's `pylgbst/comms.py` (transport, notification dispatcher,
debug relay) is embedded directly.  The message codec (`peripherals.py`,
`movehub.py`, `constants.py`, `utilities.py`) is not part of the source
tree available here; those parts are modelled from the specification and
from the literal byte fixtures asserted by the repository's own tests
(`test.py`, `tests.py`).
-/

namespace Pylgbst

/-- Modelled from the spec: hex digit table used by the `str2hex` helper of
`pylgbst/utilities.py` (file not under `src/`); bytes render as lowercase
hex, per the `"data":hex` debug-relay field and the §8 fixtures. -/
def hexDigit : ℕ → Char
  | 0 => '0'
  | 1 => '1'
  | 2 => '2'
  | 3 => '3'
  | 4 => '4'
  | 5 => '5'
  | 6 => '6'
  | 7 => '7'
  | 8 => '8'
  | 9 => '9'
  | 10 => 'a'
  | 11 => 'b'
  | 12 => 'c'
  | 13 => 'd'
  | 14 => 'e'
  | _ => 'f'

/-- Two lowercase hex characters for one byte value. -/
def byteHexChars (b : ℕ) : List Char := [hexDigit (b / 16 % 16), hexDigit (b % 16)]

/-- Character sequence of the hex rendering of a byte string. -/
def str2hexChars (data : List ℕ) : List Char := (data.map byteHexChars).flatten

/-- Modelled from the spec: `str2hex` of `pylgbst/utilities.py` (not under
`src/`), the lowercase-hex rendering of a byte string. -/
def str2hex (data : List ℕ) : String := String.mk (str2hexChars data)

/-- Modelled from the spec: `PORT_LED` from `pylgbst/constants.py` (not under
`src/`); the LED port byte `0x32` visible in the §8 LED fixtures. -/
def PORT_LED : ℕ := 0x32

/-- Modelled from the spec: `COLOR_RED` from `pylgbst/constants.py` (not under
`src/`); the red color code `0x09` visible in the §8 LED fixtures. -/
def COLOR_RED : ℕ := 0x09

/-- Modelled from the spec: `PORT_AB` from `pylgbst/constants.py` (not under
`src/`); the joint motor port byte `0x39` visible in the §8 motor fixtures. -/
def PORT_AB : ℕ := 0x39

/-- The three minor protocol revisions whose LED write payloads the spec's §8
fixture set documents (`0701813211510009`, `0801813211510009`,
`0801813201510009`). -/
inductive LedProtocolRev where
  | v0
  | v1
  | v2
deriving DecidableEq

/-- Modelled from the spec: `LED.set_color` command encoding (`peripherals.py`
not under `src/`), reconstructed from the §8 fixtures and §4.1: a length
byte, then `0x01 0x81`, the port, a revision-dependent flag byte
(`0x11` before revision v2, `0x01` from v2 on), the subcommand `0x51 0x00`
and the color byte.  Revision v0 declared the length excluding the length
byte itself; later revisions count the whole frame. -/
def ledSetColor (rev : LedProtocolRev) (port color : ℕ) : List ℕ :=
  let flag : ℕ := match rev with
    | .v2 => 0x01
    | _ => 0x11
  let body : List ℕ := [0x01, 0x81, port, flag, 0x51, 0x00, color]
  let lenByte : ℕ := match rev with
    | .v0 => body.length
    | _ => body.length + 1
  lenByte :: body

/-- The two motor-API revisions of the spec's §8 motor fixtures: v2 declares
one more length byte than v1 (v1 counts the frame excluding the length byte,
v2 the whole frame). -/
inductive MotorApi where
  | v1
  | v2
deriving DecidableEq

/-- Modelled from the spec: the single fixed wall-clock-seconds to
hardware-tick conversion constant of §4.1/§9 (1000 ticks per second, i.e.
milliseconds), pinned by the §8 fixture `dc05` = 1500 for 1.5 s. -/
def MS_PER_SECOND : ℚ := 1000

/-- Seconds to hardware ticks, by the single fixed conversion constant. -/
def secondsToTicks (s : ℚ) : ℤ := (s * MS_PER_SECOND).floor

/-- Two-byte little-endian rendering of a value. -/
def le16 (n : ℕ) : List ℕ := [n % 256, n / 256 % 256]

/-- Four-byte little-endian rendering of a value. -/
def le32 (n : ℕ) : List ℕ := [n % 256, n / 256 % 256, n / 2 ^ 16 % 256, n / 2 ^ 24 % 256]

/-- Body (everything after the length byte) of the motor timed-run command. -/
def motorTimedBody (port : ℕ) (seconds : ℚ) (speed1 speed2 : ℕ) : List ℕ :=
  [0x01, 0x81, port, 0x11, 0x0a] ++ le16 (secondsToTicks seconds).toNat
    ++ [speed1, speed2, 0x64, 0x7f, 0x03]

/-- Modelled from the spec: `EncodedMotor.timed` command encoding
(`peripherals.py` not under `src/`), reconstructed from §4.1 ("duration in
hardware ticks derived from wall-clock seconds via a fixed conversion") and
the §8 fixtures: length byte, `0x01 0x81`, port, `0x11`, subcommand `0x0a`,
the tick count as two little-endian bytes, the two speed bytes (default
power 100 = `0x64`), and the fixed trailer `0x64 0x7f 0x03`. -/
def motorTimed (v : MotorApi) (port : ℕ) (seconds : ℚ) (speed1 speed2 : ℕ) : List ℕ :=
  let body := motorTimedBody port seconds speed1 speed2
  (match v with
    | .v1 => body.length
    | .v2 => body.length + 1) :: body

/-- Body (everything after the length byte) of the motor angled-run command. -/
def motorAngledBody (port angle speed1 speed2 : ℕ) : List ℕ :=
  [0x01, 0x81, port, 0x11, 0x0c] ++ le32 angle ++ [speed1, speed2, 0x64, 0x7f, 0x03]

/-- Modelled from the spec: `EncodedMotor.angled` command encoding
(`peripherals.py` not under `src/`), reconstructed from §4.1 ("angled run
encodes {port, target angle as a 4-byte little-endian integer, power}") and
the §8 fixtures: length byte, `0x01 0x81`, port, `0x11`, subcommand `0x0c`,
the angle as four little-endian bytes, the two speed bytes and the fixed
trailer `0x64 0x7f 0x03`. -/
def motorAngled (v : MotorApi) (port angle speed1 speed2 : ℕ) : List ℕ :=
  let body := motorAngledBody port angle speed1 speed2
  (match v with
    | .v1 => body.length
    | .v2 => body.length + 1) :: body

/-- C1: setting the LED color to red produces exactly the write payload
`0801813201510009` on the current protocol revision, and the revision
variants `0701813211510009` / `0801813211510009` are reproduced exactly for
the earlier revisions. -/
theorem led_red_write_payloads :
    str2hex (ledSetColor .v2 PORT_LED COLOR_RED) = "0801813201510009" ∧
    str2hex (ledSetColor .v0 PORT_LED COLOR_RED) = "0701813211510009" ∧
    str2hex (ledSetColor .v1 PORT_LED COLOR_RED) = "0801813211510009" := by
  decide

/-- C2: a motor timed run of 1.5 seconds at the default power 100 encodes
exactly as `0c018139110adc056464647f03` under motor API v1 and
`0d018139110adc056464647f03` under v2, the `dc05` tick field being the
wall-clock duration times the single fixed conversion constant 1000. -/
theorem motor_timed_payloads :
    str2hex (motorTimed .v1 PORT_AB (3 / 2) 100 100) = "0c018139110adc056464647f03" ∧
    str2hex (motorTimed .v2 PORT_AB (3 / 2) 100 100) = "0d018139110adc056464647f03" ∧
    secondsToTicks (3 / 2) = 1500 ∧
    MS_PER_SECOND = 1000 := by
  have hticks : secondsToTicks (3 / 2) = 1500 := by
    norm_num [secondsToTicks, MS_PER_SECOND, Rat.floor]
  refine ⟨?_, ?_, hticks, rfl⟩ <;>
  · simp only [motorTimed, motorTimedBody, hticks]
    decide

/-- C3: a motor angled run to 90 degrees at the default power 100 encodes
exactly as `0e018139110c5a0000006464647f03` under motor API v1 and
`0f018139110c5a0000006464647f03` under v2, the angle field being the
4-byte little-endian rendering `5a000000` of 90. -/
theorem motor_angled_payloads :
    str2hex (motorAngled .v1 PORT_AB 90 100 100) = "0e018139110c5a0000006464647f03" ∧
    str2hex (motorAngled .v2 PORT_AB 90 100 100) = "0f018139110c5a0000006464647f03" ∧
    le32 90 = [0x5a, 0x00, 0x00, 0x00] := by
  decide


/-- One inbound notification as handed by gattlib to `Requester.on_notification`
in `pylgbst/comms.py`: the GATT handle and the delivered bytes. -/
abbrev Frame := ℕ × List ℕ

/-- A notification sink (`Requester.notification_sink`): a callable taking the
handle and the data.  A Python exception raised inside the sink (including one
propagated from a subscriber callback) is modelled as `.error`. -/
abbrev Sink := ℕ → List ℕ → Except String Unit

/-- State of a `Requester` (comms.py lines 23-56): the FIFO `_notify_queue`,
the optional `notification_sink`, plus observation logs of the dispatcher
thread: frames passed to a sink, frames dropped with a warning because no
sink was set, and frames whose sink invocation raised (caught and logged). -/
structure RequesterState where
  queue : List Frame
  sink : Option Sink
  delivered : List Frame
  dropped : List Frame
  failures : List Frame

/-- Atomic events of the embedding, one per interleaving point: `notify` is a
transport-thread call of `on_notification` (enqueue), `setSink` is
`BLEConnection.set_notify_handler` assigning `notification_sink`, `dispatch`
is one iteration of the `_dispatch_notifications` consumer loop. -/
inductive ReqEvent where
  | notify : ℕ → List ℕ → ReqEvent
  | setSink : Sink → ReqEvent
  | dispatch : ReqEvent

/-- Whether the sink raises on a given frame. -/
def raisesOn (k : Sink) (f : Frame) : Bool :=
  match k f.1 f.2 with
  | .ok _ => false
  | .error _ => true

/-- One atomic step of the `Requester` machinery, following comms.py:
`on_notification` appends to the queue (line 41); `set_notify_handler`
replaces the sink (line 103); one `_dispatch_notifications` iteration pops
the head frame and, when a sink is set, invokes it catching `BaseException`
(lines 46-56), otherwise logs "Dropped notification" and discards it. -/
def reqStep (s : RequesterState) : ReqEvent → RequesterState
  | .notify h d => { s with queue := s.queue ++ [(h, d)] }
  | .setSink k => { s with sink := some k }
  | .dispatch =>
    match s.queue with
    | [] => s
    | (h, d) :: rest =>
      match s.sink with
      | some k =>
        match k h d with
        | .ok _ => { s with queue := rest, delivered := s.delivered ++ [(h, d)] }
        | .error _ =>
          { s with queue := rest, delivered := s.delivered ++ [(h, d)],
                   failures := s.failures ++ [(h, d)] }
      | none => { s with queue := rest, dropped := s.dropped ++ [(h, d)] }

/-- Run a whole interleaving of events. -/
def runTrace (s : RequesterState) (evs : List ReqEvent) : RequesterState :=
  evs.foldl reqStep s

/-- State right after `Requester.__init__`: empty queue, `notification_sink`
is `None`. -/
def initialRequester : RequesterState := ⟨[], none, [], [], []⟩

/-- The frames the transport delivered, in arrival order. -/
def arrivals (evs : List ReqEvent) : List Frame :=
  evs.filterMap fun e => match e with
    | .notify h d => some (h, d)
    | _ => none

/-- Whether an event re-registers the sink. -/
def isSetSink : ReqEvent → Bool
  | .setSink _ => true
  | _ => false

/-- Draining lemma: with a sink set, running one dispatch iteration per queued
frame empties the queue, delivers every frame to the sink in order, and logs
exactly the frames on which the sink raised. -/
lemma runTrace_drain (k : Sink) :
    ∀ (q : List Frame) (s : RequesterState), s.sink = some k → s.queue = q →
      runTrace s (List.replicate q.length .dispatch) =
        { s with queue := [], delivered := s.delivered ++ q,
                 failures := s.failures ++ q.filter (raisesOn k) } := by
  intro q
  induction q with
  | nil =>
    intro s hs hq
    cases s
    simp_all [runTrace]
  | cons f rest ih =>
    intro s hs hq
    obtain ⟨h, d⟩ := f
    obtain ⟨q', sk, del, dr, fl⟩ := s
    simp only at hs hq
    subst hs hq
    rw [List.length_cons, List.replicate_succ]
    show runTrace (reqStep _ .dispatch) _ = _
    rcases hk : k h d with _ | _ <;>
    · simp only [reqStep, hk]
      rw [ih _ rfl rfl]
      simp [List.filter, raisesOn, hk]

/-- C4: for every inbound frame, a sink (or transitively a subscriber
callback) exception raised while handling it is caught and logged by the
dispatcher loop, which continues with the next queued frame: for an arbitrary
sink `k`, with arbitrary failures, one dispatch iteration per queued frame
drains the whole queue, every frame is still handed to the sink, and the
frames whose handling raised are exactly the logged ones — no exception
escapes or terminates the loop. -/
theorem dispatch_survives_sink_exceptions (k : Sink) (frames : List Frame) :
    (runTrace { initialRequester with queue := frames, sink := some k }
        (List.replicate frames.length .dispatch)).queue = [] ∧
    (runTrace { initialRequester with queue := frames, sink := some k }
        (List.replicate frames.length .dispatch)).delivered = frames ∧
    (runTrace { initialRequester with queue := frames, sink := some k }
        (List.replicate frames.length .dispatch)).failures = frames.filter (raisesOn k) := by
  rw [runTrace_drain k frames _ rfl rfl]
  simp [initialRequester]

/-- FIFO invariant: with a fixed registered sink, the frames delivered so far
followed by the frames still queued are exactly the arrivals in transport
order, and nothing is dropped. -/
lemma runTrace_fifo (k : Sink) :
    ∀ (evs : List ReqEvent) (s : RequesterState), s.sink = some k →
      (∀ e ∈ evs, isSetSink e = false) →
      (runTrace s evs).delivered ++ (runTrace s evs).queue
          = s.delivered ++ s.queue ++ arrivals evs ∧
      (runTrace s evs).dropped = s.dropped := by
  intro evs
  induction evs with
  | nil =>
    intro s hs hno
    simp [runTrace, arrivals]
  | cons e evs ih =>
    intro s hs hno
    have hne : isSetSink e = false := hno e (by simp)
    have hno' : ∀ e' ∈ evs, isSetSink e' = false := fun e' he' => hno e' (by simp [he'])
    have hstep : runTrace s (e :: evs) = runTrace (reqStep s e) evs := rfl
    cases e with
    | notify h d =>
      have hs' : (reqStep s (.notify h d)).sink = some k := by simp [reqStep, hs]
      obtain ⟨h1, h2⟩ := ih (reqStep s (.notify h d)) hs' hno'
      rw [hstep]
      refine ⟨?_, ?_⟩
      · rw [h1]
        simp [reqStep, arrivals, List.filterMap_cons]
      · rw [h2]
        simp [reqStep]
    | setSink k' =>
      simp [isSetSink] at hne
    | dispatch =>
      obtain ⟨q', sk, del, dr, fl⟩ := s
      simp only at hs
      subst hs
      cases q' with
      | nil =>
        have : reqStep ⟨[], some k, del, dr, fl⟩ .dispatch = ⟨[], some k, del, dr, fl⟩ := rfl
        rw [hstep, this]
        obtain ⟨h1, h2⟩ := ih ⟨[], some k, del, dr, fl⟩ rfl hno'
        simp only at h1 h2
        refine ⟨by rw [h1]; simp [arrivals], h2⟩
      | cons f rest =>
        obtain ⟨h, d⟩ := f
        rw [hstep]
        rcases hk : k h d with _ | _
        · simp only [reqStep, hk]
          obtain ⟨h1, h2⟩ := ih ⟨rest, some k, del ++ [(h, d)], dr, fl ++ [(h, d)]⟩ rfl hno'
          simp only at h1 h2
          constructor
          · rw [h1]; simp [arrivals]
          · rw [h2]
        · simp only [reqStep, hk]
          obtain ⟨h1, h2⟩ := ih ⟨rest, some k, del ++ [(h, d)], dr, fl⟩ rfl hno'
          simp only at h1 h2
          constructor
          · rw [h1]; simp [arrivals]
          · rw [h2]
    
/-- C5: notifications are enqueued in arrival order into one FIFO queue and
consumed by the single dispatcher loop, so with a sink registered from the
start (and never replaced) the sink observes frames in exactly the order the
transport delivered them — over every interleaving of transport enqueues and
dispatcher iterations, the delivered-then-still-queued sequence equals the
arrival sequence and no frame is dropped, reordered or duplicated. -/
theorem sink_observes_arrival_order (k : Sink) (evs : List ReqEvent)
    (hno : ∀ e ∈ evs, isSetSink e = false) :
    (runTrace { initialRequester with sink := some k } evs).delivered
        ++ (runTrace { initialRequester with sink := some k } evs).queue = arrivals evs ∧
    (runTrace { initialRequester with sink := some k } evs).dropped = [] := by
  obtain ⟨h1, h2⟩ := runTrace_fifo k evs { initialRequester with sink := some k } rfl hno
  refine ⟨?_, ?_⟩
  · rw [h1]; simp [initialRequester]
  · rw [h2]; simp [initialRequester]

/-- A concrete sink that never raises, for witness traces. -/
def alwaysOkSink : Sink := fun _ _ => .ok ()

/-- Witness for C5 at a concrete interleaving of two arrivals and two
dispatcher iterations. -/
theorem sink_observes_arrival_order_witness :
    (∀ e ∈ [ReqEvent.notify 14 [1, 2], ReqEvent.dispatch, ReqEvent.notify 14 [3],
        ReqEvent.dispatch], isSetSink e = false) ∧
    ((runTrace { initialRequester with sink := some alwaysOkSink }
        [ReqEvent.notify 14 [1, 2], ReqEvent.dispatch, ReqEvent.notify 14 [3],
          ReqEvent.dispatch]).delivered
      ++ (runTrace { initialRequester with sink := some alwaysOkSink }
        [ReqEvent.notify 14 [1, 2], ReqEvent.dispatch, ReqEvent.notify 14 [3],
          ReqEvent.dispatch]).queue
      = arrivals [ReqEvent.notify 14 [1, 2], ReqEvent.dispatch, ReqEvent.notify 14 [3],
          ReqEvent.dispatch] ∧
     (runTrace { initialRequester with sink := some alwaysOkSink }
        [ReqEvent.notify 14 [1, 2], ReqEvent.dispatch, ReqEvent.notify 14 [3],
          ReqEvent.dispatch]).dropped = []) :=
  ⟨by decide, sink_observes_arrival_order alwaysOkSink _ (by decide)⟩

/-- While `notification_sink` is `None` and never set, the dispatcher never
delivers anything. -/
lemma runTrace_no_sink :
    ∀ (evs : List ReqEvent) (s : RequesterState), s.sink = none →
      (∀ e ∈ evs, isSetSink e = false) →
      (runTrace s evs).delivered = s.delivered ∧ (runTrace s evs).sink = none := by
  intro evs
  induction evs with
  | nil =>
    intro s hs hno
    exact ⟨rfl, hs⟩
  | cons e evs ih =>
    intro s hs hno
    have hne : isSetSink e = false := hno e (by simp)
    have hno' : ∀ e' ∈ evs, isSetSink e' = false := fun e' he' => hno e' (by simp [he'])
    have hstep : runTrace s (e :: evs) = runTrace (reqStep s e) evs := rfl
    obtain ⟨q', sk, del, dr, fl⟩ := s
    simp only at hs
    subst hs
    cases e with
    | notify h d =>
      rw [hstep]
      exact ih ⟨q' ++ [(h, d)], none, del, dr, fl⟩ rfl hno'
    | setSink k' =>
      simp [isSetSink] at hne
    | dispatch =>
      cases q' with
      | nil =>
        rw [hstep]
        exact ih ⟨[], none, del, dr, fl⟩ rfl hno'
      | cons f rest =>
        obtain ⟨h, d⟩ := f
        rw [hstep]
        exact ih ⟨rest, none, del, dr ++ [(h, d)], fl⟩ rfl hno'

/-- C10 (amended): the no-sink check happens when the dispatcher dequeues a
frame, not when it arrives: a frame dequeued while `notification_sink` is
`None` is dropped with a logged warning — removed from the queue, not
delivered, not retained — and as long as no sink is ever registered nothing
is ever delivered.  (A frame that merely *arrives* before registration sits
in the queue and may still be delivered to a later-registered sink; see the
counterexample.) -/
theorem sinkless_dispatch_drops (s : RequesterState) (hs : s.sink = none) :
    (∀ (h : ℕ) (d : List ℕ) (rest : List Frame), s.queue = (h, d) :: rest →
      reqStep s .dispatch = { s with queue := rest, dropped := s.dropped ++ [(h, d)] }) ∧
    (∀ evs : List ReqEvent, (∀ e ∈ evs, isSetSink e = false) →
      (runTrace s evs).delivered = s.delivered) := by
  constructor
  · intro h d rest hq
    obtain ⟨q', sk, del, dr, fl⟩ := s
    simp only at hs hq
    subst hs hq
    rfl
  · intro evs hno
    exact (runTrace_no_sink evs s hs hno).1

/-- Witness for C10's amended theorem on a concrete one-frame state. -/
theorem sinkless_dispatch_drops_witness :
    reqStep ⟨[(14, [6, 1])], none, [], [], []⟩ .dispatch
        = ⟨[], none, [], [(14, [6, 1])], []⟩ ∧
    (runTrace ⟨[(14, [6, 1])], none, [], [], []⟩ [ReqEvent.dispatch]).delivered = [] :=
  ⟨(sinkless_dispatch_drops ⟨[(14, [6, 1])], none, [], [], []⟩ rfl).1 14 [6, 1] [] rfl,
   (sinkless_dispatch_drops ⟨[(14, [6, 1])], none, [], [], []⟩ rfl).2 [ReqEvent.dispatch]
     (by decide)⟩

/-- C10 counterexample: a notification that arrives while no sink is
registered (`initialRequester.sink = none`) is *not* dropped if a sink is
registered before the dispatcher dequeues it: in the interleaving
enqueue-then-register-then-dispatch the frame is delivered to the
later-registered sink and the dropped log stays empty, contradicting the
claim that such notifications are never delivered to a sink registered
later. -/
theorem early_frame_delivered_to_late_sink :
    initialRequester.sink = none ∧
    (runTrace initialRequester
        [ReqEvent.notify 14 [6, 1], ReqEvent.setSink alwaysOkSink,
          ReqEvent.dispatch]).delivered = [(14, [6, 1])] ∧
    (runTrace initialRequester
        [ReqEvent.notify 14 [6, 1], ReqEvent.setSink alwaysOkSink,
          ReqEvent.dispatch]).dropped = [] :=
  ⟨rfl, rfl, rfl⟩


/-- Hex digits are never a newline character. -/
lemma hexDigit_ne_newline (d : ℕ) : hexDigit d ≠ '\n' := by
  match d with
  | 0 | 1 | 2 | 3 | 4 | 5 | 6 | 7 | 8 | 9 | 10 | 11 | 12 | 13 | 14 => decide
  | n + 15 =>
    show ('f' : Char) ≠ '\n'
    decide

/-- The hex rendering of a byte string never contains a newline. -/
lemma str2hexChars_no_newline (data : List ℕ) : '\n' ∉ str2hexChars data := by
  induction data with
  | nil => simp [str2hexChars]
  | cons b rest ih =>
    simp only [str2hexChars, List.map_cons, List.flatten_cons] at *
    intro hmem
    rcases List.mem_append.mp hmem with h1 | h1
    · simp only [byteHexChars, List.mem_cons, List.mem_singleton] at h1
      rcases h1 with h1 | h1 | h1
      · exact hexDigit_ne_newline _ h1.symm
      · exact hexDigit_ne_newline _ h1.symm
      · exact List.not_mem_nil _ h1
    · exact ih h1

/-- Decimal digit characters, for the integer field of the JSON lines. -/
def decDigit : ℕ → Char
  | 0 => '0'
  | 1 => '1'
  | 2 => '2'
  | 3 => '3'
  | 4 => '4'
  | 5 => '5'
  | 6 => '6'
  | 7 => '7'
  | 8 => '8'
  | _ => '9'

/-- Decimal digits are never a newline character. -/
lemma decDigit_ne_newline (d : ℕ) : decDigit d ≠ '\n' := by
  match d with
  | 0 | 1 | 2 | 3 | 4 | 5 | 6 | 7 | 8 => decide
  | n + 9 =>
    show ('9' : Char) ≠ '\n'
    decide

/-- Fuel-driven accumulator loop producing the decimal digits of a number,
most significant first. -/
def natDecimalAux : ℕ → ℕ → List Char → List Char
  | 0, _, acc => acc
  | fuel + 1, n, acc =>
    let acc' := decDigit (n % 10) :: acc
    if n < 10 then acc' else natDecimalAux fuel (n / 10) acc'

/-- Modelled from the spec: the decimal rendering of the `handle` integer
field produced by the Python `json` library inside `json.dumps` (external
library, no source in the repository). -/
def natDecimalChars (n : ℕ) : List Char := natDecimalAux (n + 1) n []

/-- The decimal rendering never contains a newline. -/
lemma natDecimalAux_no_newline :
    ∀ (fuel n : ℕ) (acc : List Char), '\n' ∉ acc → '\n' ∉ natDecimalAux fuel n acc := by
  intro fuel
  induction fuel with
  | zero => intro n acc hacc; exact hacc
  | succ fuel ih =>
    intro n acc hacc
    rw [natDecimalAux]
    have hacc' : '\n' ∉ decDigit (n % 10) :: acc := by
      intro hmem
      rcases List.mem_cons.mp hmem with h1 | h1
      · exact decDigit_ne_newline _ h1.symm
      · exact hacc h1
    split
    · exact hacc'
    · exact ih _ _ hacc'

/-- The decimal rendering of a number never contains a newline. -/
lemma natDecimalChars_no_newline (n : ℕ) : '\n' ∉ natDecimalChars n :=
  natDecimalAux_no_newline _ _ _ (by simp)

/-- Modelled from the spec: `json.dumps` (Python standard library) applied to
the fixed-shape payload dict `\x7b"type": t, "handle": h, "data": d\x7d`
built by `DebugServer._notify` and `DebugServerConnection.write`: keys in
insertion order, the default separators `", "` and `": "`, strings quoted. -/
def jsonObjectLine (typ : String) (handle : ℕ) (dataHex : List Char) : List Char :=
  "\x7b\"type\": \"".data ++ typ.data ++ "\", \"handle\": ".data
    ++ natDecimalChars handle ++ ", \"data\": \"".data ++ dataHex ++ "\"\x7d".data

/-- Embedding of `DebugServer._notify` (comms.py lines 154-158): the bytes sent to the
debug client for one forwarded notification, `json.dumps(payload) + "\n"`
with `payload = \x7b"type": "notification", "handle": handle,
"data": str2hex(data)\x7d`. -/
def notify_message (handle : ℕ) (data : List ℕ) : List Char :=
  jsonObjectLine "notification" handle (str2hexChars data) ++ ['\n']

/-- Embedding of `DebugServerConnection.write` / `_send` (comms.py lines 225-235): the
bytes sent to the debug server for one outbound write,
`json.dumps(payload) + "\n"` with `payload = \x7b"type": "write",
"handle": handle, "data": str2hex(data)\x7d`. -/
def write_message (handle : ℕ) (data : List ℕ) : List Char :=
  jsonObjectLine "write" handle (str2hexChars data) ++ ['\n']

/-- A serialized payload object line never contains a newline, provided the
type tag and the data field do not. -/
lemma newline_not_mem_jsonObjectLine (typ : String) (htyp : '\n' ∉ typ.data)
    (handle : ℕ) (dataHex : List Char) (hdata : '\n' ∉ dataHex) :
    '\n' ∉ jsonObjectLine typ handle dataHex := by
  unfold jsonObjectLine
  intro hmem
  simp only [List.mem_append] at hmem
  rcases hmem with (((((h1 | h2) | h3) | h4) | h5) | h6) | h7
  · revert h1; decide
  · exact htyp h2
  · revert h3; decide
  · exact natDecimalChars_no_newline _ h4
  · revert h5; decide
  · exact hdata h6
  · revert h7; decide

/-- C6: every message the debug relay exchanges is one JSON object
terminated by a newline: a forwarded notification is serialized as
`\x7b"type": "notification", "handle": int, "data": hex\x7d` plus `"\n"`,
an outbound write as `\x7b"type": "write", "handle": int, "data": hex\x7d`
plus `"\n"`; the object part contains no newline, so the newline delimits
exactly one object per line; two concrete fixtures are reproduced
byte-for-byte. -/
theorem debug_relay_line_delimited (handle : ℕ) (data : List ℕ) :
    notify_message handle data
        = jsonObjectLine "notification" handle (str2hexChars data) ++ ['\n'] ∧
    write_message handle data
        = jsonObjectLine "write" handle (str2hexChars data) ++ ['\n'] ∧
    '\n' ∉ jsonObjectLine "notification" handle (str2hexChars data) ∧
    '\n' ∉ jsonObjectLine "write" handle (str2hexChars data) ∧
    String.mk (notify_message 14 [6, 1])
        = "\x7b\"type\": \"notification\", \"handle\": 14, \"data\": \"0601\"\x7d\n" ∧
    String.mk (write_message 14 [1, 2, 3])
        = "\x7b\"type\": \"write\", \"handle\": 14, \"data\": \"010203\"\x7d\n" := by
  refine ⟨rfl, rfl, ?_, ?_, by decide, by decide⟩
  · exact newline_not_mem_jsonObjectLine _ (by decide) _ _ (str2hexChars_no_newline data)
  · exact newline_not_mem_jsonObjectLine _ (by decide) _ _ (str2hexChars_no_newline data)

/-- Modelled from the spec: `MSG_DEVICE_SHUTDOWN` from `pylgbst/constants.py`
(not under `src/`), the terminal shutdown message-type byte.  The claims
depend only on equality with this constant, not on its numeric value. -/
def MSG_DEVICE_SHUTDOWN : ℕ := 0x02

/-- Embedding of `DebugServer._check_shutdown` (comms.py lines 166-169): clear the
`_running` flag when byte 5 of the delivered data is the shutdown message
type, else leave it.  (Python raises `IndexError` on frames shorter than six
bytes; the theorems therefore take frames of length at least six.) -/
def check_shutdown (running : Bool) (data : List ℕ) : Bool :=
  if data.getD 5 0 = MSG_DEVICE_SHUTDOWN then false else running

/-- The `_running` flag after the notifications of one accepted debug-client
session: every notification goes through `_notify` (or `_notify_dummy`),
each of which calls `_check_shutdown` on the delivered data. -/
def handle_session (running : Bool) (frames : List (List ℕ)) : Bool :=
  frames.foldl check_shutdown running

/-- Embedding of the `DebugServer.start` serving loop (comms.py lines 126-145): sessions are
accepted only while `_running` holds (the loop guard, re-checked after each
accept).  Returns the number of connection sessions handled. -/
def serve : Bool → List (List (List ℕ)) → ℕ
  | _, [] => 0
  | running, c :: rest => if running then 1 + serve (handle_session running c) rest else 0

/-- A cleared running flag stays cleared through `_check_shutdown`. -/
lemma check_shutdown_false (data : List ℕ) : check_shutdown false data = false := by
  unfold check_shutdown
  split <;> rfl

/-- A cleared running flag stays cleared through a whole session. -/
lemma handle_session_false (frames : List (List ℕ)) : handle_session false frames = false := by
  induction frames with
  | nil => rfl
  | cons d rest ih =>
    show handle_session (check_shutdown false d) rest = false
    rw [check_shutdown_false]
    exact ih

/-- With the running flag cleared, the serving loop accepts nothing. -/
lemma serve_false (conns : List (List (List ℕ))) : serve false conns = 0 := by
  cases conns with
  | nil => rfl
  | cons c rest => simp [serve]

/-- A session containing a shutdown frame leaves the running flag cleared. -/
lemma handle_session_shutdown (frames : List (List ℕ)) (running : Bool)
    (hshut : (frames.any fun d => d.getD 5 0 == MSG_DEVICE_SHUTDOWN) = true) :
    handle_session running frames = false := by
  induction frames generalizing running with
  | nil => simp at hshut
  | cons d rest ih =>
    rw [List.any_cons] at hshut
    show handle_session (check_shutdown running d) rest = false
    rcases Bool.or_eq_true_iff.mp hshut with h1 | h1
    · have hc : check_shutdown running d = false := by
        unfold check_shutdown
        rw [if_pos (by simpa using h1)]
      rw [hc]
      exact handle_session_false rest
    · exact ih _ h1

/-- C7: a frame whose byte at offset 5 equals `MSG_DEVICE_SHUTDOWN` clears
the debug server's running flag, and only such a frame does (a frame with a
running server clears the flag iff its byte 5 is the shutdown type); once
the flag is cleared the serving loop accepts no further connection, and a
session containing a shutdown frame leaves exactly that one session
handled. -/
theorem shutdown_byte_stops_serving (data : List ℕ) (hlen : 5 < data.length)
    (running : Bool) (frames : List (List ℕ)) (conns : List (List (List ℕ)))
    (hshut : (frames.any fun d => d.getD 5 0 == MSG_DEVICE_SHUTDOWN) = true) :
    (check_shutdown running data = false
        ↔ running = false ∨ data.get ⟨5, hlen⟩ = MSG_DEVICE_SHUTDOWN) ∧
    serve false conns = 0 ∧
    serve true (frames :: conns) = 1 := by
  refine ⟨?_, serve_false conns, ?_⟩
  · have hgd : data.getD 5 0 = data.get ⟨5, hlen⟩ := by
      simp [List.getD_eq_getElem, hlen, List.get_eq_getElem]
    unfold check_shutdown
    rw [hgd]
    split
    · next h => exact ⟨fun _ => Or.inr h, fun _ => rfl⟩
    · next h =>
      constructor
      · intro hr
        exact Or.inl hr
      · intro hor
        rcases hor with h1 | h1
        · exact h1
        · exact absurd h1 h
  · show (if true then 1 + serve (handle_session true frames) conns else 0) = 1
    rw [if_pos rfl, handle_session_shutdown frames true hshut, serve_false]

/-- Witness for C7 on a concrete six-byte shutdown frame. -/
theorem shutdown_byte_stops_serving_witness :
    (5 < [0x1b, 0x0e, 0x00, 0x06, 0x00, 0x02].length ∧
      (([[0x1b, 0x0e, 0x00, 0x06, 0x00, 0x02]] : List (List ℕ)).any
        fun d => d.getD 5 0 == MSG_DEVICE_SHUTDOWN) = true) ∧
    ((check_shutdown true [0x1b, 0x0e, 0x00, 0x06, 0x00, 0x02] = false
        ↔ true = false ∨ ([0x1b, 0x0e, 0x00, 0x06, 0x00, 0x02] : List ℕ).get ⟨5, by decide⟩
            = MSG_DEVICE_SHUTDOWN) ∧
      serve false [] = 0 ∧
      serve true [[[0x1b, 0x0e, 0x00, 0x06, 0x00, 0x02]]] = 1) :=
  ⟨⟨by decide, by decide⟩,
    shutdown_byte_stops_serving [0x1b, 0x0e, 0x00, 0x06, 0x00, 0x02] (by decide) true
      [[0x1b, 0x0e, 0x00, 0x06, 0x00, 0x02]] [] (by decide)⟩

/-- Modelled from the spec: the decode error taxonomy of §7 (`CodecError`):
mismatched length is malformed, a frame too short for its header is
truncated. -/
inductive CodecError where
  | truncated
  | malformed
deriving DecidableEq

/-- Modelled from the spec: a decoded protocol message, §3 Frame /
§4.1 header: message-type tag plus payload. -/
structure Message where
  msgType : ℕ
  payload : List ℕ
deriving DecidableEq

/-- Modelled from the spec: the frame header size, §4.1 — one length byte,
one hub-id byte, one message-type byte. -/
def HEADER_SIZE : ℕ := 3

/-- Modelled from the spec: `decode(bytes) -> Result<Message, CodecError>`
(§4.1; the decoding code lives in `movehub.py`/`peripherals.py`, not under
`src/`): read the three header bytes, require the declared length to equal
payload length plus header size (§3 Frame invariant), reject a mismatch as
malformed and anything shorter than a header as truncated. -/
def decode (bs : List ℕ) : Except CodecError Message :=
  match bs with
  | len :: _hubId :: typ :: rest =>
    if len = rest.length + HEADER_SIZE then Except.ok ⟨typ, rest⟩
    else Except.error CodecError.malformed
  | _ => Except.error CodecError.truncated

/-- C8: every successfully decoded frame's declared length prefix equals its
payload length plus the header size (and equals the full frame length), and
a frame whose length prefix mismatches its actual length is rejected as
malformed — an error value, with no partially parsed message. -/
theorem frame_length_invariant (bs bs' : List ℕ) (msg : Message)
    (hok : decode bs = Except.ok msg)
    (hlen : 3 ≤ bs'.length) (hbad : bs'.getD 0 0 ≠ bs'.length) :
    bs.getD 0 0 = msg.payload.length + HEADER_SIZE ∧
    bs.length = msg.payload.length + HEADER_SIZE ∧
    decode bs' = Except.error CodecError.malformed := by
  have hmain : bs.getD 0 0 = msg.payload.length + HEADER_SIZE ∧
      bs.length = msg.payload.length + HEADER_SIZE := by
    match bs with
    | [] => simp [decode] at hok
    | [a] => simp [decode] at hok
    | [a, b] => simp [decode] at hok
    | len :: hubId :: typ :: rest =>
      rw [decode] at hok
      split at hok
      · next heq =>
        injection hok with hmsg
        subst hmsg
        constructor
        · exact heq
        · simp [HEADER_SIZE]
      · exact absurd hok (by simp)
  refine ⟨hmain.1, hmain.2, ?_⟩
  match bs' with
  | [] => simp at hlen
  | [a] => simp at hlen
  | [a, b] => simp at hlen
  | len :: hubId :: typ :: rest =>
    have hne : ¬ (len = rest.length + HEADER_SIZE) := by
      intro heq
      apply hbad
      show len = (len :: hubId :: typ :: rest).length
      simp only [List.length_cons, HEADER_SIZE] at heq ⊢
      omega
    rw [decode, if_neg hne]

/-- Witness for C8: the attach fixture `09 00 04 39 0227003738` decodes with
a correct length prefix, and `07 00 04 39` (declared 7, actual 4) is
rejected as malformed. -/
theorem frame_length_invariant_witness :
    (decode [9, 0, 4, 0x39, 0x02, 0x27, 0x00, 0x37, 0x38]
        = Except.ok ⟨4, [0x39, 0x02, 0x27, 0x00, 0x37, 0x38]⟩ ∧
      3 ≤ ([7, 0, 4, 0x39] : List ℕ).length ∧
      ([7, 0, 4, 0x39] : List ℕ).getD 0 0 ≠ ([7, 0, 4, 0x39] : List ℕ).length) ∧
    (([9, 0, 4, 0x39, 0x02, 0x27, 0x00, 0x37, 0x38] : List ℕ).getD 0 0
        = ([0x39, 0x02, 0x27, 0x00, 0x37, 0x38] : List ℕ).length + HEADER_SIZE ∧
      ([9, 0, 4, 0x39, 0x02, 0x27, 0x00, 0x37, 0x38] : List ℕ).length
        = ([0x39, 0x02, 0x27, 0x00, 0x37, 0x38] : List ℕ).length + HEADER_SIZE ∧
      decode [7, 0, 4, 0x39] = Except.error CodecError.malformed) :=
  ⟨⟨rfl, by decide, by decide⟩,
    frame_length_invariant [9, 0, 4, 0x39, 0x02, 0x27, 0x00, 0x37, 0x38] [7, 0, 4, 0x39]
      ⟨4, [0x39, 0x02, 0x27, 0x00, 0x37, 0x38]⟩ rfl (by decide) (by decide)⟩

/-- Modelled from the spec: a device's subscription set (§3 Subscription;
`peripherals.py` not under `src/`) as (callback, mode) pairs, and
`unsubscribe` removing a callback from the set.  The spec's "completes
without raising an error" is modelled by totality. -/
def unsubscribe {κ : Type} [DecidableEq κ] (subs : List (κ × ℕ)) (c : κ) : List (κ × ℕ) :=
  subs.filter fun s => decide (s.1 ≠ c)

/-- C9: unsubscribe is idempotent — removing the same callback twice leaves
the same subscription set as removing it once, and unsubscribing a callback
that was never subscribed leaves the set unchanged; both complete (the
operation is total, no error, no blocking). -/
theorem unsubscribe_idempotent {κ : Type} [DecidableEq κ] (subs : List (κ × ℕ)) (c : κ) :
    unsubscribe (unsubscribe subs c) c = unsubscribe subs c ∧
    ((∀ m : ℕ, (c, m) ∉ subs) → unsubscribe subs c = subs) := by
  constructor
  · unfold unsubscribe
    rw [List.filter_filter]
    congr 1
    funext s
    rw [Bool.and_self]
  · intro hnot
    unfold unsubscribe
    rw [List.filter_eq_self]
    intro s hs
    rcases s with ⟨a, m⟩
    simp only [decide_eq_true_eq]
    intro hac
    subst hac
    exact hnot m hs

/-- Witness for C9 on a concrete subscription set with a never-subscribed
callback. -/
theorem unsubscribe_idempotent_witness :
    unsubscribe (unsubscribe [(1, 0), (2, 5)] 3) 3 = unsubscribe [(1, 0), (2, 5)] 3 ∧
    unsubscribe [(1, 0), (2, 5)] 3 = [(1, 0), (2, 5)] :=
  ⟨(unsubscribe_idempotent [(1, 0), (2, 5)] 3).1,
   (unsubscribe_idempotent [(1, 0), (2, 5)] 3).2 (by
      intro m
      simp)⟩

end Pylgbst
